import Mathlib

/-!
Verification of the extended-query execution engine of `tokio-postgres`
(files `src/tokio-postgres/src/query.rs` and `src/tokio-postgres/src/statement.rs`),
as a shallow embedding in Lean 4.

Wire-level byte encoding (the `postgres-protocol` crate) and the connection
layer (`client.rs`) are outside the embedded sources; where their behavior is
needed it is modelled from the spec, and each such definition says so in its
doc comment. Buffers of encoded frontend messages are modelled as
`List FrontendMsg`, with one entry per protocol message appended.
-/

set_option autoImplicit false

namespace TokioPostgres

/-- A PostgreSQL type descriptor, identified by its wire OID
(`postgres_types::Type`, external to the embedded sources). -/
structure PgType where
  oid : Nat
deriving DecidableEq, Repr

/-- A structured server error payload (`ErrorResponse` body). -/
structure DbError where
  message : String
deriving DecidableEq, Repr

/-- A row-description field as delivered by the backend
(`postgres_protocol::message::backend::Field`). -/
structure Field where
  name : String
  tableOid : Nat
  columnId : Int
  typeOid : Nat
deriving DecidableEq, Repr

/-- Backend messages this engine consumes
(`postgres_protocol::message::backend::Message`, restricted to the variants
the embedded code matches on). A `dataRow` carries its raw column bytes; a
`commandComplete` carries its already-decoded tag text. -/
inductive Message where
  | parseComplete
  | bindComplete
  | parameterDescription (oids : List Nat)
  | rowDescription (fields : List Field)
  | noData
  | dataRow (body : List (Option (List Nat)))
  | commandComplete (tag : String)
  | emptyQueryResponse
  | portalSuspended
  | readyForQuery
  | errorResponse (e : DbError)
deriving DecidableEq, Repr

/-- The error taxonomy of `tokio-postgres::Error`, restricted to the
constructors the embedded code produces (`error.rs` is not among the embedded
sources; constructor payloads follow the call sites in `query.rs` and the
spec's taxonomy). `parameters real expected` is the parameter-count mismatch;
`toSql e idx` is a parameter-conversion failure at zero-based index `idx`;
`closed` is the connection-channel-closed error the reply channel yields when
no further message can arrive. -/
inductive Error where
  | db (e : DbError)
  | unexpectedMessage
  | parameters (real expected : Nat)
  | toSql (e : String) (idx : Nat)
  | encode (e : String)
  | parse (e : String)
  | closed
deriving DecidableEq, Repr

/-- Frontend protocol messages the engine emits, at message granularity
(byte-level framing by `postgres-protocol` is out of scope). -/
inductive FrontendMsg where
  | bind (portal statement : String) (formats : List Int)
      (values : List (Option (List Nat)))
  | execute (portal : String) (maxRows : Int)
  | sync
  | parse (name query : String) (paramOids : List Nat)
  | describe (kind : Char) (name : String)
  | close (kind : Char) (name : String)
deriving DecidableEq, Repr

/-- Information about a column of a query (`statement.rs::Column`, fields as
built by the embedded code: ids and oids reported as `0` become `none`). -/
structure Column where
  name : String
  table_oid : Option Nat
  column_id : Option Int
  type_ : PgType
deriving DecidableEq, Repr

/-- A prepared statement descriptor as the query paths consume it: name,
declared parameter types, result columns (`statement.rs::Statement`
accessors `name`/`params`/`columns`). The shared-ownership and teardown
machinery is embedded separately as `StatementInner` below. -/
structure Statement where
  name : String
  params : List PgType
  columns : List Column

/-- Split a character list on every space, keeping empty tokens, exactly as
Rust's `str::split(' ')`; the result is never empty (`""` gives `[[]]`). -/
def splitSpace : List Char → List (List Char)
  | [] => [[]]
  | c :: rest =>
    match splitSpace rest with
    | [] => [[]]
    | t :: ts => if c = ' ' then [] :: t :: ts else (c :: t) :: ts

/-- Rust's `str::rsplit(' ')`: the tokens of `splitSpace` from the right. -/
def rsplitSpace (cs : List Char) : List (List Char) :=
  (splitSpace cs).reverse

/-- Rust's `str::parse::<u64>()`: an optional leading `+`, then one or more
ASCII digits, rejecting values outside the `u64` range. -/
def parseU64 (cs : List Char) : Option Nat :=
  let ds := if cs.head? = some '+' then cs.tail else cs
  if ds = [] then none
  else if ds.all Char.isDigit then
    let n := ds.foldl (fun acc c => acc * 10 + (c.toNat - 48)) 0
    if n < 2 ^ 64 then some n else none
  else none

/-- `query.rs::extract_row_affected`: the rows-affected count is the token
after the last space of the command-complete tag (`rsplit(' ').next()`),
parsed as a `u64` with `unwrap_or(0)`. The tag arrives already decoded in
this embedding, so the `tag()` parse step cannot fail here. -/
def extract_row_affected (tag : String) : Except Error Nat :=
  Except.ok ((parseU64 ((rsplitSpace tag.data).headD [])).getD 0)

/-- The ad-hoc query state machine of `query.rs` (`QueryProcessingState`). -/
inductive QueryProcessingState where
  | empty
  | parseCompleted
  | bindCompleted
  | parameterDescribed
  | final (columns : List Column)
deriving DecidableEq, Repr

/-- The column list `form_final` builds from a row description's fields,
preserving field order: each field's type oid is resolved through the catalog
service, and ids and table oids reported as `0` become `none`. -/
def resolvedColumns (getType : Nat → PgType) (fields : List Field) :
    List Column :=
  fields.map fun (f : Field) =>
    { name := f.name
      table_oid := if f.tableOid = 0 then none else some f.tableOid
      column_id := if f.columnId = 0 then none else some f.columnId
      type_ := getType f.typeOid }

/-- `query.rs::QueryProcessingState::form_final`: build the resolved column
list from an optional row description. Type resolution (`get_type`, the
external catalog service of `prepare.rs`) is passed in as `getType`; per the
spec's collaborator interface it maps a wire type identifier to a `Type`. -/
def QueryProcessingState.form_final (getType : Nat → PgType)
    (row_description : Option (List Field)) : Except Error QueryProcessingState :=
  match row_description with
  | none => Except.ok (QueryProcessingState.final [])
  | some fields =>
    Except.ok (QueryProcessingState.final (resolvedColumns getType fields))

/-- `query.rs::QueryProcessingState::process_message`: one transition of the
ad-hoc state machine, in the source's match order. -/
def QueryProcessingState.process_message (getType : Nat → PgType)
    (s : QueryProcessingState) (message : Message) :
    Except Error QueryProcessingState :=
  match s, message with
  | QueryProcessingState.empty, Message.parseComplete =>
    Except.ok QueryProcessingState.parseCompleted
  | QueryProcessingState.parseCompleted, Message.bindComplete =>
    Except.ok QueryProcessingState.bindCompleted
  | QueryProcessingState.bindCompleted, Message.parameterDescription _ =>
    Except.ok QueryProcessingState.parameterDescribed
  | QueryProcessingState.parameterDescribed, Message.rowDescription row_description =>
    QueryProcessingState.form_final getType (some row_description)
  | QueryProcessingState.parameterDescribed, Message.noData =>
    QueryProcessingState.form_final getType none
  | _, Message.errorResponse body => Except.error (Error.db body)
  | _, _ => Except.error Error.unexpectedMessage

/-- The reply-consumption loop of `query.rs::query_with_param_types`
(lines 158-173): feed each reply into `process_message` until the `final`
state is reached, returning the resolved columns and the unconsumed replies
(which go to the returned row stream). An exhausted reply list is the
channel-closed error the reply channel yields. -/
def QueryProcessingState.runToFinal (getType : Nat → PgType)
    (s : QueryProcessingState) :
    List Message → Except Error (List Column × List Message)
  | [] => Except.error Error.closed
  | m :: ms =>
    match QueryProcessingState.process_message getType s m with
    | Except.error e => Except.error e
    | Except.ok (QueryProcessingState.final columns) => Except.ok (columns, ms)
    | Except.ok s' => QueryProcessingState.runToFinal getType s' ms

/-- Whether a `to_sql_checked` call reported the SQL `NULL` value
(`postgres_types::IsNull`). -/
inductive IsNull where
  | yes
  | no
deriving DecidableEq, Repr

/-- A caller-supplied parameter value. Modelled from the spec: the
`BorrowToSql`/`ToSql` traits (not under the embedded sources) let a value
choose a wire format for a target type (`encode_format`) and serialize itself
against a target type (`to_sql_checked`), producing bytes or `NULL`, or
failing with a conversion error. -/
structure Param where
  encodeFormat : PgType → Int
  toSqlChecked : PgType → Except String (Option (List Nat))

/-- A parameter whose serialization always succeeds, used in concrete
checks. -/
def okParam : Param :=
  { encodeFormat := fun _ => 1, toSqlChecked := fun _ => Except.ok (some [1]) }

/-- A parameter whose serialization always fails with `"boom"`, used in
concrete checks. -/
def boomParam : Param :=
  { encodeFormat := fun _ => 0, toSqlChecked := fun _ => Except.error "boom" }

/-- The per-value serialization closure of
`query.rs::encode_bind_with_statement_name_and_param_types` (lines 323-330):
serialize one enumerated `(param, type)` pair; on failure record the
zero-based index (the source's `error_idx` capture) alongside the error. -/
def bindClosure (x : Nat × (Param × PgType)) :
    Except (String × Nat) (Option (List Nat)) :=
  match x.2.1.toSqlChecked x.2.2 with
  | Except.ok v => Except.ok v
  | Except.error e => Except.error (e, x.1)

/-- The error type of `postgres_protocol::message::frontend::bind`; the
conversion variant carries the closure's error (here paired with the captured
index), the serialization variant is a byte-level encoder failure. -/
inductive BindError (ε : Type) where
  | conversion (e : ε)
  | serialization (e : String)

/-- Serialize a list of values in order with `f`, short-circuiting at the
first failure. The second component is the list of values whose serializer
was actually invoked, in invocation order. -/
def bindWriteValues {α ε β : Type} (f : α → Except ε β) :
    List α → Except ε (List β) × List α
  | [] => (Except.ok [], [])
  | a :: as =>
    match f a with
    | Except.error e => (Except.error e, [a])
    | Except.ok b =>
      match bindWriteValues f as with
      | (Except.ok bs, tr) => (Except.ok (b :: bs), a :: tr)
      | (Except.error e, tr) => (Except.error e, a :: tr)

/-- Modelled from the spec: `postgres_protocol::message::frontend::bind`
(the `postgres-protocol` crate is not under the embedded sources). It writes
the portal, statement name and the format list, then serializes each value in
order via the caller's closure, short-circuiting at the first failure; only
on success is the finished Bind message appended to the buffer. Alongside the
source's result it returns the list of values whose serializer was invoked. -/
def frontendBind {α ε : Type} (portal statement : String) (formats : List Int)
    (values : List α) (f : α → Except ε (Option (List Nat)))
    (buf : List FrontendMsg) :
    (Except (BindError ε) (List FrontendMsg)) × List α :=
  match bindWriteValues f values with
  | (Except.ok vs, tr) =>
    (Except.ok (buf ++ [FrontendMsg.bind portal statement formats vs]), tr)
  | (Except.error e, tr) => (Except.error (BindError.conversion e), tr)

/-- `query.rs::encode_bind_with_statement_name_and_param_types`: check the
parameter count against the declared types, compute the per-parameter wire
formats, then serialize the values through `frontendBind`. Returns the final
buffer (mutated in place in the source) together with the error, if any. -/
def encode_bind_with_statement_name_and_param_types
    (statement_name : String) (param_types : List PgType) (params : List Param)
    (portal : String) (buf : List FrontendMsg) :
    List FrontendMsg × Option Error :=
  if param_types.length ≠ params.length then
    (buf, some (Error.parameters params.length param_types.length))
  else
    let param_formats :=
      (params.zip param_types).map fun pt => pt.1.encodeFormat pt.2
    match frontendBind portal statement_name param_formats
        (params.zip param_types).enum bindClosure buf with
    | (Except.ok buf', _) => (buf', none)
    | (Except.error (BindError.conversion (e, idx)), _) =>
      (buf, some (Error.toSql e idx))
    | (Except.error (BindError.serialization e), _) =>
      (buf, some (Error.encode e))

/-- `query.rs::encode_bind`: bind against a known statement's name and
declared parameter types. -/
def encode_bind (statement : Statement) (params : List Param)
    (portal : String) (buf : List FrontendMsg) : List FrontendMsg × Option Error :=
  encode_bind_with_statement_name_and_param_types
    statement.name statement.params params portal buf

/-- `query.rs::encode`: under the scoped buffer (`with_buf` starts from the
freshly split, hence empty, shared buffer), encode Bind to the unnamed
portal, Execute with no row limit, then Sync. -/
def encode (statement : Statement) (params : List Param) :
    Except Error (List FrontendMsg) :=
  match encode_bind statement params "" [] with
  | (buf, none) => Except.ok (buf ++ [FrontendMsg.execute "" 0, FrontendMsg.sync])
  | (_, some e) => Except.error e

/-- A decoded row. Modelled from the spec: the external row construction
service (`Row::new`, `row.rs`, not under the embedded sources) builds a row
from the statement's column descriptors and the raw row bytes; cell decoding
itself is out of scope, so construction is total here. -/
structure Row where
  statement : Statement
  body : List (Option (List Nat))

/-- `Row::new` as the embedded code calls it. -/
def Row.new (statement : Statement) (body : List (Option (List Nat))) : Row :=
  { statement := statement, body := body }

/-- `query.rs::RowStream`: the statement used to interpret rows, the reply
channel (modelled as the list of replies not yet consumed), and the
rows-affected count, initially unset. -/
structure RowStream where
  statement : Statement
  responses : List Message
  rows_affected : Option Nat

/-- `RowStream::rows_affected`: returns `none` until the stream has seen a
CommandComplete message. -/
def RowStream.rowsAffected (s : RowStream) : Option Nat :=
  s.rows_affected

/-- The outcome of one `poll_next` on a `RowStream`: a decoded row, the end
of the stream, or a failure, each with the stream state left behind. -/
inductive PollResult where
  | row (r : Row) (s : RowStream)
  | done (s : RowStream)
  | err (e : Error) (s : RowStream)

/-- The loop body of `RowStream::poll_next` (`query.rs` lines 355-370),
recursing over the reply channel. The first two arms are the reply channel's
own behavior, modelled from the spec: an exhausted channel fails with the
connection-closed error, and an ErrorResponse is delivered as the server's
error (spec §4.5/§7); both surface through the `?` on `responses.poll_next`.
The remaining arms are the source's match: DataRow yields a decoded row,
CommandComplete records rows-affected and continues, EmptyQueryResponse and
PortalSuspended continue, ReadyForQuery ends the stream, anything else is a
protocol violation. -/
def pollLoop (stmt : Statement) (ra : Option Nat) : List Message → PollResult
  | [] => PollResult.err Error.closed ⟨stmt, [], ra⟩
  | Message.errorResponse e :: rest => PollResult.err (Error.db e) ⟨stmt, rest, ra⟩
  | Message.dataRow body :: rest =>
    PollResult.row (Row.new stmt body) ⟨stmt, rest, ra⟩
  | Message.commandComplete tag :: rest =>
    match extract_row_affected tag with
    | Except.ok n => pollLoop stmt (some n) rest
    | Except.error e => PollResult.err e ⟨stmt, rest, ra⟩
  | Message.emptyQueryResponse :: rest => pollLoop stmt ra rest
  | Message.portalSuspended :: rest => pollLoop stmt ra rest
  | Message.readyForQuery :: rest => PollResult.done ⟨stmt, rest, ra⟩
  | _ :: rest => PollResult.err Error.unexpectedMessage ⟨stmt, rest, ra⟩

/-- `RowStream::poll_next` (`Stream` impl in `query.rs`). -/
def RowStream.poll_next (s : RowStream) : PollResult :=
  pollLoop s.statement s.rows_affected s.responses

/-- How a fully pulled `RowStream` finished: normally at ReadyForQuery
(carrying the rows-affected value readable afterwards), with an error, or
still pending when the fuel ran out. -/
inductive RunOutcome where
  | done (ra : Option Nat)
  | failed (e : Error)
  | pending

/-- Pull a `RowStream` to exhaustion (at most `fuel` pulls), collecting the
yielded rows and the final outcome. -/
def RowStream.run : Nat → RowStream → List Row × RunOutcome
  | 0, _ => ([], RunOutcome.pending)
  | fuel + 1, s =>
    match s.poll_next with
    | PollResult.row r s' =>
      match RowStream.run fuel s' with
      | (rs, o) => (r :: rs, o)
    | PollResult.done s' => ([], RunOutcome.done s'.rows_affected)
    | PollResult.err e _ => ([], RunOutcome.failed e)

/-- Modelled from the spec: the reply channel (`client.rs::Responses`, not
under the embedded sources) delivers the server's replies for one request in
order; an ErrorResponse is delivered as the server's error, and an exhausted
channel fails with the connection-closed error. -/
def Responses.next : List Message → Except Error (Message × List Message)
  | [] => Except.error Error.closed
  | Message.errorResponse e :: _ => Except.error (Error.db e)
  | m :: rest => Except.ok (m, rest)

/-- `query.rs::start`: send the encoded batch and await exactly one reply,
which must be BindComplete; any other first reply fails immediately. Returns
the still-unconsumed remainder of the reply channel. Sending is modelled by
pairing the batch (already built by the caller) with its reply list. -/
def start (replies : List Message) : Except Error (List Message) :=
  match Responses.next replies with
  | Except.error e => Except.error e
  | Except.ok (Message.bindComplete, rest) => Except.ok rest
  | Except.ok (_, _) => Except.error Error.unexpectedMessage

/-- The drain loop of `query.rs::execute` (lines 233-244), run after
BindComplete: DataRow is discarded, CommandComplete overwrites the running
count with its parsed tag, EmptyQueryResponse resets it to 0, ReadyForQuery
returns the current count. The first two arms are the reply channel's
behavior (as in `pollLoop`): exhaustion fails with the connection-closed
error and an ErrorResponse fails with the server's error, through the `?` on
`responses.next()`. Every other message is a protocol violation. -/
def executeDrain (rows : Nat) : List Message → Except Error Nat
  | [] => Except.error Error.closed
  | Message.errorResponse e :: _ => Except.error (Error.db e)
  | Message.dataRow _ :: rest => executeDrain rows rest
  | Message.commandComplete tag :: rest =>
    match extract_row_affected tag with
    | Except.ok n => executeDrain n rest
    | Except.error e => Except.error e
  | Message.emptyQueryResponse :: rest => executeDrain 0 rest
  | Message.readyForQuery :: _ => Except.ok rows
  | _ :: _ => Except.error Error.unexpectedMessage

/-- `query.rs::query`: encode Bind+Execute+Sync via `encode`, send, await
one BindComplete via `start`, and return the sent batch together with a
`RowStream` whose rows-affected is unset. A failure at any step returns the
error before any stream exists. -/
def query (statement : Statement) (params : List Param)
    (replies : List Message) : Except Error (List FrontendMsg × RowStream) :=
  match encode statement params with
  | Except.error e => Except.error e
  | Except.ok buf =>
    match start replies with
    | Except.error e => Except.error e
    | Except.ok rest =>
      Except.ok (buf, { statement := statement, responses := rest,
                        rows_affected := none })

/-- `query.rs::execute`: identical encoding and BindComplete await as
`query`, then drain all replies via `executeDrain` starting from count 0. -/
def execute (statement : Statement) (params : List Param)
    (replies : List Message) : Except Error Nat :=
  match encode statement params with
  | Except.error e => Except.error e
  | Except.ok _ =>
    match start replies with
    | Except.error e => Except.error e
    | Except.ok rest => executeDrain 0 rest

/-- An open server-side cursor. Modelled from the spec: the engine treats a
portal as "a name plus the Statement that produced it" (`portal.rs` is not
under the embedded sources). -/
structure Portal where
  name : String
  statement : Statement

/-- `query.rs::query_portal`: encode Execute(portal name, caller-supplied
max row count) + Sync, send, and return the batch with a `RowStream` over
the untouched reply channel (no BindComplete awaited), interpreting rows via
the portal's originating statement, rows-affected unset. -/
def query_portal (portal : Portal) (max_rows : Int)
    (replies : List Message) : List FrontendMsg × RowStream :=
  ([FrontendMsg.execute portal.name max_rows, FrontendMsg.sync],
   { statement := portal.statement, responses := replies,
     rows_affected := none })

/-- The connection from a dropped statement's point of view. Modelled from
the spec: the send service (`client.rs`, not under the embedded sources)
queues pre-encoded batches; when the connection is shutting down it rejects
the batch with an error and enqueues nothing. -/
structure Connection where
  queue : List (List FrontendMsg)
  accepting : Bool

/-- Modelled from the spec: `InnerClient::send`: enqueue a batch, or fail
without enqueuing when the connection no longer accepts requests. -/
def Connection.send (c : Connection) (batch : List FrontendMsg) :
    Except Error Unit × Connection :=
  if c.accepting then
    (Except.ok (), { c with queue := c.queue ++ [batch] })
  else
    (Except.error Error.closed, c)

/-- `statement.rs::StatementInner`: the data behind a shared `Statement`
handle: the statement's name, declared parameter types and columns. Its weak
back-reference to the connection is modelled at the drop site as the result
of `Weak::upgrade` (see `StatementInner.drop`). -/
structure StatementInner where
  name : String
  params : List PgType
  columns : List Column

/-- `impl Drop for StatementInner` (`statement.rs` lines 18-29), run when
the last shared `Statement` handle is dropped. `upgraded` is the result of
`self.client.upgrade()`: `none` when the connection is gone, in which case
nothing happens. Otherwise a Close('S', name) + Sync batch is built and
handed to the connection's send path, whose result is discarded (`let _ =`).
The function is total and returns the connection's new state: teardown never
propagates an error and never awaits an acknowledgment. -/
def StatementInner.drop (self : StatementInner)
    (upgraded : Option Connection) : Option Connection :=
  match upgraded with
  | none => none
  | some client =>
    let buf := [FrontendMsg.close 'S' self.name, FrontendMsg.sync]
    match client.send buf with
    | (_, client') => some client'

/-- The number of Close messages for statement `name` in a send queue. -/
def closeCount (name : String) (queue : List (List FrontendMsg)) : Nat :=
  (queue.map fun batch =>
    (batch.filter fun m => m = FrontendMsg.close 'S' name).length).sum

/-! ### Helper lemmas -/

theorem splitSpace_ne_nil (cs : List Char) : splitSpace cs ≠ [] := by
  cases cs with
  | nil => simp [splitSpace]
  | cons c rest =>
    simp only [splitSpace]
    rcases h : splitSpace rest with _ | ⟨t, ts⟩
    · simp
    · by_cases hc : c = ' ' <;> simp [hc]

theorem parseU64_lt_of_some (cs : List Char) (n : Nat)
    (h : parseU64 cs = some n) : n < 2 ^ 64 := by
  simp only [parseU64] at h
  split_ifs at h <;> simp_all

theorem parseU64_getD_lt (cs : List Char) : (parseU64 cs).getD 0 < 2 ^ 64 := by
  rcases h : parseU64 cs with _ | n
  · simp
  · simpa using parseU64_lt_of_some cs n h

/-! ### Claim theorems -/

/-- C5: `extract_row_affected` parses the rows-affected count as the token
after the last space of the command-complete tag: `"INSERT 0 3"` gives 3,
`"UPDATE 5"` gives 5, and the empty tag or any tag whose trailing token does
not parse as a number gives 0 rather than an error. -/
theorem extract_row_affected_spec :
    extract_row_affected "INSERT 0 3" = Except.ok 3 ∧
    extract_row_affected "UPDATE 5" = Except.ok 5 ∧
    extract_row_affected "" = Except.ok 0 ∧
    ∀ tag : String,
      parseU64 ((rsplitSpace tag.data).headD []) = none →
      extract_row_affected tag = Except.ok 0 := by
  refine ⟨rfl, rfl, rfl, fun tag h => ?_⟩
  simp only [extract_row_affected]
  rw [h]
  rfl

/-- Witness for C5: `"DROP TABLE"` has a non-numeric trailing token and
reports 0. -/
theorem extract_row_affected_spec_witness :
    parseU64 ((rsplitSpace "DROP TABLE".data).headD []) = none ∧
    extract_row_affected "DROP TABLE" = Except.ok 0 :=
  ⟨rfl, extract_row_affected_spec.2.2.2 "DROP TABLE" rfl⟩

/-- C10: for every command-complete tag that decodes to a string,
`extract_row_affected` is total and never fails: the `rsplit` on a space
always yields at least one token (so the source's `unwrap` after `next()` is
safe), and the result is always `Except.ok` with a value inside the `u64`
range — a last token that does not parse as an unsigned 64-bit integer
(non-numeric, negative, or exceeding the range) reports 0 via the
`unwrap_or(0)` default. -/
theorem extract_row_affected_total :
    (∀ tag : String,
      rsplitSpace tag.data ≠ [] ∧
      ∃ n, extract_row_affected tag = Except.ok n ∧ n < 2 ^ 64) ∧
    extract_row_affected "SELECT 99999999999999999999999999" = Except.ok 0 ∧
    extract_row_affected "SELECT -5" = Except.ok 0 := by
  refine ⟨fun tag => ⟨?_, ?_⟩, rfl, rfl⟩
  · simp [rsplitSpace, splitSpace_ne_nil]
  · exact ⟨_, rfl, parseU64_getD_lt _⟩

/-- C4: a `RowStream` polled over the replies
`[DataRow, DataRow, CommandComplete "SELECT 2", ReadyForQuery]` yields
exactly the two decoded rows and then ends; its rows-affected accessor
returns `none` before the stream has consumed the CommandComplete message
and `some 2` once the stream has ended. -/
theorem row_stream_select2 :
    ∀ (stmt : Statement) (b1 b2 : List (Option (List Nat))),
      (RowStream.mk stmt
          [Message.dataRow b1, Message.dataRow b2,
           Message.commandComplete "SELECT 2", Message.readyForQuery]
          none).rowsAffected = none ∧
      (RowStream.mk stmt
          [Message.dataRow b1, Message.dataRow b2,
           Message.commandComplete "SELECT 2", Message.readyForQuery]
          none).poll_next
        = PollResult.row (Row.new stmt b1)
            (RowStream.mk stmt
              [Message.dataRow b2, Message.commandComplete "SELECT 2",
               Message.readyForQuery] none) ∧
      (RowStream.mk stmt
          [Message.dataRow b2, Message.commandComplete "SELECT 2",
           Message.readyForQuery] none).rowsAffected = none ∧
      (RowStream.mk stmt
          [Message.dataRow b2, Message.commandComplete "SELECT 2",
           Message.readyForQuery] none).poll_next
        = PollResult.row (Row.new stmt b2)
            (RowStream.mk stmt
              [Message.commandComplete "SELECT 2", Message.readyForQuery]
              none) ∧
      (RowStream.mk stmt
          [Message.commandComplete "SELECT 2", Message.readyForQuery]
          none).rowsAffected = none ∧
      (RowStream.mk stmt
          [Message.commandComplete "SELECT 2", Message.readyForQuery]
          none).poll_next
        = PollResult.done (RowStream.mk stmt [] (some 2)) ∧
      (RowStream.mk stmt [] (some 2)).rowsAffected = some 2 ∧
      RowStream.run 4
          (RowStream.mk stmt
            [Message.dataRow b1, Message.dataRow b2,
             Message.commandComplete "SELECT 2", Message.readyForQuery]
            none)
        = ([Row.new stmt b1, Row.new stmt b2], RunOutcome.done (some 2)) :=
  fun _ _ _ => ⟨rfl, rfl, rfl, rfl, rfl, rfl, rfl, rfl⟩

/-- C6: dropping the last shared reference to a statement hands exactly one
Close message for that statement's name (with a trailing Sync) to the
connection's send path when the weak back-reference still resolves; when the
connection is gone nothing is enqueued; and in both cases teardown is total —
a rejected enqueue is swallowed, leaving the connection unchanged, and no
error propagates (the function returns the new connection state on every
path). -/
theorem statement_drop_close (inner : StatementInner) :
    StatementInner.drop inner none = none ∧
    (∀ c : Connection, c.accepting = true →
      StatementInner.drop inner (some c)
        = some { c with queue := c.queue ++
            [[FrontendMsg.close 'S' inner.name, FrontendMsg.sync]] } ∧
      closeCount inner.name (c.queue ++
          [[FrontendMsg.close 'S' inner.name, FrontendMsg.sync]])
        = closeCount inner.name c.queue + 1) ∧
    (∀ c : Connection, c.accepting = false →
      StatementInner.drop inner (some c) = some c) := by
  refine ⟨rfl, fun c hc => ⟨?_, ?_⟩, fun c hc => ?_⟩
  · simp [StatementInner.drop, Connection.send, hc]
  · simp [closeCount]
  · simp [StatementInner.drop, Connection.send, hc]

/-- Witness for C6: a concrete statement dropped against a live accepting
connection enqueues its Close batch; against a dead connection nothing
happens. -/
theorem statement_drop_close_witness :
    StatementInner.drop ⟨"s0", [], []⟩ (some ⟨[], true⟩)
      = some ⟨[[FrontendMsg.close 'S' "s0", FrontendMsg.sync]], true⟩ ∧
    StatementInner.drop ⟨"s0", [], []⟩ none = none :=
  ⟨((statement_drop_close ⟨"s0", [], []⟩).2.1 ⟨[], true⟩ rfl).1,
   (statement_drop_close ⟨"s0", [], []⟩).1⟩

theorem zip_map_fst_snd {α β : Type} (l : List (α × β)) :
    (l.map Prod.fst).zip (l.map Prod.snd) = l := by
  induction l with
  | nil => rfl
  | cons x xs ih => simp [ih]

theorem bindWriteValues_enumFrom (k : Nat)
    (good : List (Param × PgType)) (pb : Param) (tyb : PgType)
    (rest : List (Param × PgType)) (e : String)
    (hgood : ∀ x ∈ good, ∃ v, x.1.toSqlChecked x.2 = Except.ok v)
    (hbad : pb.toSqlChecked tyb = Except.error e) :
    bindWriteValues bindClosure ((good ++ (pb, tyb) :: rest).enumFrom k)
      = (Except.error (e, k + good.length), (good ++ [(pb, tyb)]).enumFrom k) := by
  induction good generalizing k with
  | nil =>
    simp [List.enumFrom, bindWriteValues, bindClosure, hbad]
  | cons a as ih =>
    obtain ⟨v, hv⟩ := hgood a (by simp)
    have hrec := ih (k + 1) (fun x hx => hgood x (by simp [hx]))
    have harith : k + 1 + as.length = k + (as.length + 1) := by omega
    simp only [List.cons_append, List.enumFrom, bindWriteValues, bindClosure, hv,
      List.append_eq, hrec, List.length_cons, harith]

/-- C2: for every parameter list whose length differs from the declared
parameter-type count, `encode_bind` fails with the parameter-count-mismatch
error carrying the actual and expected counts, with the buffer untouched;
and the `query`/`execute` entry points then fail with that error before any
batch is produced for sending. -/
theorem encode_bind_count_mismatch :
    (∀ (statement_name portal : String) (param_types : List PgType)
       (params : List Param) (buf : List FrontendMsg),
      params.length ≠ param_types.length →
      encode_bind_with_statement_name_and_param_types statement_name
          param_types params portal buf
        = (buf, some (Error.parameters params.length param_types.length))) ∧
    (∀ (stmt : Statement) (params : List Param) (replies : List Message),
      params.length ≠ stmt.params.length →
      query stmt params replies
          = Except.error (Error.parameters params.length stmt.params.length) ∧
      execute stmt params replies
          = Except.error (Error.parameters params.length stmt.params.length)) := by
  have hbind : ∀ (statement_name portal : String) (param_types : List PgType)
      (params : List Param) (buf : List FrontendMsg),
      params.length ≠ param_types.length →
      encode_bind_with_statement_name_and_param_types statement_name
          param_types params portal buf
        = (buf, some (Error.parameters params.length param_types.length)) := by
    intro statement_name portal param_types params buf h
    simp [encode_bind_with_statement_name_and_param_types, Ne.symm h]
  refine ⟨hbind, fun stmt params replies h => ?_⟩
  have henc : encode stmt params
      = Except.error (Error.parameters params.length stmt.params.length) := by
    simp [encode, encode_bind, hbind stmt.name "" stmt.params params [] h]
  constructor
  · simp [query, henc]
  · simp [execute, henc]

/-- Witness for C2: binding zero values against one declared type fails with
the mismatch error and leaves the buffer empty; `query` and `execute` fail
the same way. -/
theorem encode_bind_count_mismatch_witness :
    encode_bind_with_statement_name_and_param_types "s" [PgType.mk 23] [] "" []
      = ([], some (Error.parameters 0 1)) ∧
    query (Statement.mk "s" [PgType.mk 23] []) [] []
      = Except.error (Error.parameters 0 1) ∧
    execute (Statement.mk "s" [PgType.mk 23] []) [] []
      = Except.error (Error.parameters 0 1) :=
  ⟨encode_bind_count_mismatch.1 "s" "" [PgType.mk 23] [] [] (by decide),
   (encode_bind_count_mismatch.2 (Statement.mk "s" [PgType.mk 23] []) [] []
      (by decide)).1,
   (encode_bind_count_mismatch.2 (Statement.mk "s" [PgType.mk 23] []) [] []
      (by decide)).2⟩

/-- C3: when the parameter at zero-based index `i` (the one after `good`)
fails to serialize and all earlier parameters serialize successfully,
`encode_bind` fails with the parameter-conversion error carrying exactly
index `i` and the buffer untouched, and the serializer is invoked for
exactly the parameters up to and including index `i` — none after it. -/
theorem encode_bind_conversion_short_circuit
    (statement_name portal : String) (buf : List FrontendMsg)
    (good : List (Param × PgType)) (pb : Param) (tyb : PgType)
    (rest : List (Param × PgType)) (e : String)
    (hgood : ∀ x ∈ good, ∃ v, x.1.toSqlChecked x.2 = Except.ok v)
    (hbad : pb.toSqlChecked tyb = Except.error e) :
    encode_bind_with_statement_name_and_param_types statement_name
        ((good ++ (pb, tyb) :: rest).map Prod.snd)
        ((good ++ (pb, tyb) :: rest).map Prod.fst) portal buf
      = (buf, some (Error.toSql e good.length)) ∧
    (frontendBind portal statement_name
        (((good ++ (pb, tyb) :: rest)).map fun pt => pt.1.encodeFormat pt.2)
        ((good ++ (pb, tyb) :: rest)).enum bindClosure buf).2
      = (good ++ [(pb, tyb)]).enum := by
  have hzip := zip_map_fst_snd (good ++ (pb, tyb) :: rest)
  have hrun := bindWriteValues_enumFrom 0 good pb tyb rest e hgood hbad
  constructor
  · simp only [encode_bind_with_statement_name_and_param_types]
    rw [if_neg (by simp)]
    rw [hzip]
    simp only [frontendBind, List.enum]
    rw [hrun]
    simp
  · simp only [frontendBind, List.enum]
    rw [hrun]

/-- Witness for C3: with one succeeding parameter before a failing one, the
bind fails with conversion index 1 and only parameters 0 and 1 are
serialized. -/
theorem encode_bind_conversion_short_circuit_witness :
    encode_bind_with_statement_name_and_param_types "s"
        [PgType.mk 25, PgType.mk 25] [okParam, boomParam] "" []
      = ([], some (Error.toSql "boom" 1)) ∧
    (frontendBind "" "s"
        ([(okParam, PgType.mk 25), (boomParam, PgType.mk 25)].map
          fun pt => pt.1.encodeFormat pt.2)
        ([(okParam, PgType.mk 25), (boomParam, PgType.mk 25)]).enum
        bindClosure []).2
      = [(0, (okParam, PgType.mk 25)), (1, (boomParam, PgType.mk 25))] := by
  have h := encode_bind_conversion_short_circuit "s" "" []
      [(okParam, PgType.mk 25)] boomParam (PgType.mk 25) [] "boom"
      (by
        intro x hx
        simp at hx
        subst hx
        exact ⟨some [1], rfl⟩)
      rfl
  exact ⟨h.1, h.2⟩

/-- C1: the ad-hoc query state machine accepts exactly the reply sequence
ParseComplete, BindComplete, ParameterDescription, then either RowDescription
or NoData (reaching the final state with the resolved columns — empty for
NoData); in every state an ErrorResponse fails with the server's error; and
every other state/reply combination fails with the protocol-violation error.
Stated as: (1) ErrorResponse always yields the server's error, (2,3) the two
accepted sequences run to the final state consuming exactly four replies,
(4) only the five table transitions ever succeed, (5) every failure is
either the server's error on an ErrorResponse or the protocol-violation
error. -/
theorem query_processing_state_machine (getType : Nat → PgType) :
    (∀ (s : QueryProcessingState) (e : DbError),
      QueryProcessingState.process_message getType s (Message.errorResponse e)
        = Except.error (Error.db e)) ∧
    (∀ (pd : List Nat) (fs : List Field) (ms : List Message),
      QueryProcessingState.runToFinal getType QueryProcessingState.empty
          (Message.parseComplete :: Message.bindComplete ::
           Message.parameterDescription pd :: Message.rowDescription fs :: ms)
        = Except.ok (resolvedColumns getType fs, ms)) ∧
    (∀ (pd : List Nat) (ms : List Message),
      QueryProcessingState.runToFinal getType QueryProcessingState.empty
          (Message.parseComplete :: Message.bindComplete ::
           Message.parameterDescription pd :: Message.noData :: ms)
        = Except.ok ([], ms)) ∧
    (∀ (s s' : QueryProcessingState) (m : Message),
      QueryProcessingState.process_message getType s m = Except.ok s' →
      (s = QueryProcessingState.empty ∧ m = Message.parseComplete ∧
        s' = QueryProcessingState.parseCompleted) ∨
      (s = QueryProcessingState.parseCompleted ∧ m = Message.bindComplete ∧
        s' = QueryProcessingState.bindCompleted) ∨
      (s = QueryProcessingState.bindCompleted ∧
        (∃ pd, m = Message.parameterDescription pd) ∧
        s' = QueryProcessingState.parameterDescribed) ∨
      (s = QueryProcessingState.parameterDescribed ∧
        ∃ fs, m = Message.rowDescription fs ∧
          s' = QueryProcessingState.final (resolvedColumns getType fs)) ∨
      (s = QueryProcessingState.parameterDescribed ∧ m = Message.noData ∧
        s' = QueryProcessingState.final [])) ∧
    (∀ (s : QueryProcessingState) (m : Message) (e' : Error),
      QueryProcessingState.process_message getType s m = Except.error e' →
      (∃ b, m = Message.errorResponse b ∧ e' = Error.db b) ∨
      e' = Error.unexpectedMessage) := by
  refine ⟨fun s e => ?_, fun pd fs ms => rfl, fun pd ms => rfl,
    fun s s' m h => ?_, fun s m e' h => ?_⟩
  · cases s <;> rfl
  · cases s <;> cases m <;>
      simp_all [QueryProcessingState.process_message,
        QueryProcessingState.form_final]
  · cases s <;> cases m <;>
      simp_all [QueryProcessingState.process_message,
        QueryProcessingState.form_final]

/-- Witness for C1: with a concrete type resolver, the NoData sequence runs
to the final state with no columns, and feeding NoData to the initial state
is rejected as the protocol-violation error. -/
theorem query_processing_state_machine_witness :
    QueryProcessingState.runToFinal (fun oid => PgType.mk oid)
        QueryProcessingState.empty
        [Message.parseComplete, Message.bindComplete,
         Message.parameterDescription [], Message.noData]
      = Except.ok ([], []) ∧
    ((∃ b, Message.noData = Message.errorResponse b ∧
        Error.unexpectedMessage = Error.db b) ∨
      (Error.unexpectedMessage : Error) = Error.unexpectedMessage) :=
  ⟨(query_processing_state_machine (fun oid => PgType.mk oid)).2.2.1 [] [],
   (query_processing_state_machine (fun oid => PgType.mk oid)).2.2.2.2
     QueryProcessingState.empty Message.noData Error.unexpectedMessage rfl⟩

/-- C7 counterexample: after BindComplete, an ErrorResponse reply makes
`execute` fail with the server's error, not with the protocol-violation
error that the claim assigns to every message other than the four it
lists. -/
theorem execute_error_response_counterexample :
    execute (Statement.mk "s" [] []) []
        [Message.bindComplete, Message.errorResponse (DbError.mk "boom")]
      = Except.error (Error.db (DbError.mk "boom")) ∧
    executeDrain 0 [Message.errorResponse (DbError.mk "boom")]
      = Except.error (Error.db (DbError.mk "boom")) ∧
    Error.db (DbError.mk "boom") ≠ Error.unexpectedMessage :=
  ⟨rfl, rfl, by decide⟩

/-- C7 (amended): `execute`, after awaiting BindComplete, drains all replies
itself: every DataRow is discarded, every CommandComplete overwrites the
running rows-affected count with the value parsed from its tag,
EmptyQueryResponse resets the count to 0, ReadyForQuery ends the call
returning the current count (which started at 0); an ErrorResponse fails the
call with the server's error; and any other message fails the call with the
protocol-violation error. -/
theorem execute_drain_characterization :
    (∀ (stmt : Statement) (params : List Param) (buf : List FrontendMsg)
       (rest : List Message),
      encode stmt params = Except.ok buf →
      execute stmt params (Message.bindComplete :: rest)
        = executeDrain 0 rest) ∧
    (∀ (rows : Nat) (b : List (Option (List Nat))) (rest : List Message),
      executeDrain rows (Message.dataRow b :: rest) = executeDrain rows rest) ∧
    (∀ (rows : Nat) (tag : String) (rest : List Message),
      executeDrain rows (Message.commandComplete tag :: rest)
        = executeDrain ((parseU64 ((rsplitSpace tag.data).headD [])).getD 0)
            rest) ∧
    (∀ (rows : Nat) (rest : List Message),
      executeDrain rows (Message.emptyQueryResponse :: rest)
        = executeDrain 0 rest) ∧
    (∀ (rows : Nat) (rest : List Message),
      executeDrain rows (Message.readyForQuery :: rest) = Except.ok rows) ∧
    (∀ (rows : Nat) (e : DbError) (rest : List Message),
      executeDrain rows (Message.errorResponse e :: rest)
        = Except.error (Error.db e)) ∧
    (∀ (rows : Nat) (m : Message) (rest : List Message),
      (m = Message.parseComplete ∨ m = Message.bindComplete ∨
       (∃ oids, m = Message.parameterDescription oids) ∨
       (∃ fs, m = Message.rowDescription fs) ∨ m = Message.noData ∨
       m = Message.portalSuspended) →
      executeDrain rows (m :: rest) = Except.error Error.unexpectedMessage) := by
  refine ⟨fun stmt params buf rest h => ?_, fun rows b rest => rfl,
    fun rows tag rest => rfl, fun rows rest => rfl, fun rows rest => rfl,
    fun rows e rest => rfl, fun rows m rest hm => ?_⟩
  · simp [execute, h, start, Responses.next]
  · rcases hm with rfl | rfl | ⟨oids, rfl⟩ | ⟨fs, rfl⟩ | rfl | rfl <;> rfl

/-- Witness for C7: a concrete `execute` run enters the drain with count 0,
and a NoData reply inside the drain is the protocol-violation error. -/
theorem execute_drain_characterization_witness :
    execute (Statement.mk "s" [] [])
        [] [Message.bindComplete, Message.readyForQuery]
      = executeDrain 0 [Message.readyForQuery] ∧
    executeDrain 3 [Message.noData] = Except.error Error.unexpectedMessage :=
  ⟨execute_drain_characterization.1 (Statement.mk "s" [] []) []
      [FrontendMsg.bind "" "s" [] [], FrontendMsg.execute "" 0,
       FrontendMsg.sync] [Message.readyForQuery] rfl,
   execute_drain_characterization.2.2.2.2.2.2 3 Message.noData []
     (Or.inr (Or.inr (Or.inr (Or.inr (Or.inl rfl)))))⟩

/-- C8: `query` and `execute` send the batch built by the one shared
`encode` function — a Bind to the unnamed portal, an Execute with no row
limit, then Sync — and both await exactly one first reply, which must be
BindComplete: an ErrorResponse first reply fails both with the server's
error, any other non-BindComplete first reply fails both with the
protocol-violation error, and in every failure case `query` returns before
any row stream exists; on success `query` returns the sent batch and a row
stream over the remaining replies with rows-affected unset. -/
theorem query_execute_shared_first_reply :
    (∀ (stmt : Statement) (params : List Param) (buf : List FrontendMsg),
      encode stmt params = Except.ok buf →
      ∃ formats values,
        buf = [FrontendMsg.bind "" stmt.name formats values,
               FrontendMsg.execute "" 0, FrontendMsg.sync]) ∧
    (∀ (stmt : Statement) (params : List Param) (replies : List Message)
       (e : Error),
      encode stmt params = Except.error e →
      query stmt params replies = Except.error e ∧
      execute stmt params replies = Except.error e) ∧
    (∀ (stmt : Statement) (params : List Param) (buf : List FrontendMsg),
      encode stmt params = Except.ok buf →
      (∀ rest, query stmt params (Message.bindComplete :: rest)
          = Except.ok (buf, RowStream.mk stmt rest none)) ∧
      (∀ (e : DbError) (rest : List Message),
        query stmt params (Message.errorResponse e :: rest)
            = Except.error (Error.db e) ∧
        execute stmt params (Message.errorResponse e :: rest)
            = Except.error (Error.db e)) ∧
      (∀ (m : Message) (rest : List Message),
        (∀ e, m ≠ Message.errorResponse e) → m ≠ Message.bindComplete →
        query stmt params (m :: rest)
            = Except.error Error.unexpectedMessage ∧
        execute stmt params (m :: rest)
            = Except.error Error.unexpectedMessage)) ∧
    (∀ (stmt : Statement) (params : List Param) (replies : List Message)
       (buf : List FrontendMsg) (rs : RowStream),
      query stmt params replies = Except.ok (buf, rs) →
      encode stmt params = Except.ok buf ∧ rs.rows_affected = none ∧
      rs.statement = stmt) := by
  refine ⟨fun stmt params buf h => ?_, fun stmt params replies e h => ?_,
    fun stmt params buf h => ⟨fun rest => ?_, fun e rest => ?_,
      fun m rest hne hnb => ?_⟩, fun stmt params replies buf rs h => ?_⟩
  · simp only [encode, encode_bind] at h
    by_cases hlen : stmt.params.length ≠ params.length
    · simp only [encode_bind_with_statement_name_and_param_types,
        if_pos hlen] at h
      exact absurd h (by simp)
    · simp only [encode_bind_with_statement_name_and_param_types,
        if_neg hlen, frontendBind] at h
      rcases hb : bindWriteValues bindClosure
          ((params.zip stmt.params).enum) with ⟨r, tr⟩
      rw [hb] at h
      cases r with
      | ok vs =>
        simp at h
        exact ⟨_, vs, h.symm⟩
      | error p =>
        rcases p with ⟨e, idx⟩
        simp at h
  · constructor
    · simp [query, h]
    · simp [execute, h]
  · simp [query, h, start, Responses.next]
  · constructor
    · simp [query, h, start, Responses.next]
    · simp [execute, h, start, Responses.next]
  · cases m with
    | errorResponse e => exact absurd rfl (hne e)
    | bindComplete => exact absurd rfl hnb
    | parseComplete =>
      exact ⟨by simp [query, h, start, Responses.next],
        by simp [execute, h, start, Responses.next]⟩
    | parameterDescription oids =>
      exact ⟨by simp [query, h, start, Responses.next],
        by simp [execute, h, start, Responses.next]⟩
    | rowDescription fs =>
      exact ⟨by simp [query, h, start, Responses.next],
        by simp [execute, h, start, Responses.next]⟩
    | noData =>
      exact ⟨by simp [query, h, start, Responses.next],
        by simp [execute, h, start, Responses.next]⟩
    | dataRow b =>
      exact ⟨by simp [query, h, start, Responses.next],
        by simp [execute, h, start, Responses.next]⟩
    | commandComplete tag =>
      exact ⟨by simp [query, h, start, Responses.next],
        by simp [execute, h, start, Responses.next]⟩
    | emptyQueryResponse =>
      exact ⟨by simp [query, h, start, Responses.next],
        by simp [execute, h, start, Responses.next]⟩
    | portalSuspended =>
      exact ⟨by simp [query, h, start, Responses.next],
        by simp [execute, h, start, Responses.next]⟩
    | readyForQuery =>
      exact ⟨by simp [query, h, start, Responses.next],
        by simp [execute, h, start, Responses.next]⟩
  · rcases henc : encode stmt params with e | buf'
    · simp [query, henc] at h
    · rcases hst : start replies with e | rest
      · simp [query, henc, hst] at h
      · simp [query, henc, hst] at h
        obtain ⟨hb, hrs⟩ := h
        subst hb
        exact ⟨rfl, by rw [← hrs], by rw [← hrs]⟩

/-- Witness for C8: for a concrete statement with no parameters, the encoded
batch has the Bind/Execute/Sync shape, a BindComplete first reply yields the
stream, and a ReadyForQuery first reply fails both entry points with the
protocol-violation error. -/
theorem query_execute_shared_first_reply_witness :
    (∃ formats values,
      [FrontendMsg.bind "" "s" ([] : List Int)
          ([] : List (Option (List Nat))),
       FrontendMsg.execute "" 0, FrontendMsg.sync]
        = [FrontendMsg.bind "" "s" formats values,
           FrontendMsg.execute "" 0, FrontendMsg.sync]) ∧
    query (Statement.mk "s" [] []) [] [Message.bindComplete]
      = Except.ok ([FrontendMsg.bind "" "s" [] [],
          FrontendMsg.execute "" 0, FrontendMsg.sync],
          RowStream.mk (Statement.mk "s" [] []) [] none) ∧
    query (Statement.mk "s" [] []) [] [Message.readyForQuery]
      = Except.error Error.unexpectedMessage ∧
    execute (Statement.mk "s" [] []) [] [Message.readyForQuery]
      = Except.error Error.unexpectedMessage :=
  ⟨query_execute_shared_first_reply.1 (Statement.mk "s" [] []) []
      [FrontendMsg.bind "" "s" [] [], FrontendMsg.execute "" 0,
       FrontendMsg.sync] rfl,
   (query_execute_shared_first_reply.2.2.1 (Statement.mk "s" [] [])
       [] [FrontendMsg.bind "" "s" [] [], FrontendMsg.execute "" 0,
           FrontendMsg.sync] rfl).1 [],
   ((query_execute_shared_first_reply.2.2.1 (Statement.mk "s" [] [])
       [] [FrontendMsg.bind "" "s" [] [], FrontendMsg.execute "" 0,
           FrontendMsg.sync] rfl).2.2 Message.readyForQuery []
       (fun e => by simp) (by simp)).1,
   ((query_execute_shared_first_reply.2.2.1 (Statement.mk "s" [] [])
       [] [FrontendMsg.bind "" "s" [] [], FrontendMsg.execute "" 0,
           FrontendMsg.sync] rfl).2.2 Message.readyForQuery []
       (fun e => by simp) (by simp)).2⟩

theorem run_dataRows (stmt : Statement) (ra : Option Nat)
    (bodies : List (List (Option (List Nat)))) :
    RowStream.run (bodies.length + 1)
        (RowStream.mk stmt
          (bodies.map Message.dataRow ++
           [Message.portalSuspended, Message.readyForQuery]) ra)
      = (bodies.map (Row.new stmt), RunOutcome.done ra) := by
  induction bodies with
  | nil => rfl
  | cons b bs ih =>
    have hpoll : (RowStream.mk stmt
        (Message.dataRow b :: (bs.map Message.dataRow ++
          [Message.portalSuspended, Message.readyForQuery])) ra).poll_next
        = PollResult.row (Row.new stmt b)
            (RowStream.mk stmt (bs.map Message.dataRow ++
              [Message.portalSuspended, Message.readyForQuery]) ra) := rfl
    rw [List.length_cons, List.map_cons, List.cons_append, RowStream.run]
    simp only [hpoll, ih]
    simp

/-- C9: `query_portal` encodes only Execute(portal name, caller-supplied
maximum row count) followed by Sync, and returns a row stream immediately —
the reply channel is untouched (no BindComplete awaited), the stream
interprets rows via the portal's originating statement, and rows-affected is
unset; when the replies are some DataRows followed by PortalSuspended and
then ReadyForQuery, the stream yields exactly those rows and ends with
rows-affected still unset. -/
theorem query_portal_spec :
    (∀ (portal : Portal) (max_rows : Int) (replies : List Message),
      (query_portal portal max_rows replies).1
        = [FrontendMsg.execute portal.name max_rows, FrontendMsg.sync] ∧
      (query_portal portal max_rows replies).2.statement
        = portal.statement ∧
      (query_portal portal max_rows replies).2.responses = replies ∧
      (query_portal portal max_rows replies).2.rowsAffected = none) ∧
    (∀ (portal : Portal) (max_rows : Int)
       (bodies : List (List (Option (List Nat)))),
      RowStream.run (bodies.length + 1)
          (query_portal portal max_rows
            (bodies.map Message.dataRow ++
             [Message.portalSuspended, Message.readyForQuery])).2
        = (bodies.map (Row.new portal.statement), RunOutcome.done none)) :=
  ⟨fun _ _ _ => ⟨rfl, rfl, rfl, rfl⟩,
   fun portal _ bodies => run_dataRows portal.statement none bodies⟩

end TokioPostgres
